import Mathlib

/-! Form 5500 search-table rebuild: the SQL statement generator.

A shallow embedding of `build_form5500_search_table.go`.  Go strings are Lean
strings, `[]T` slices are lists, `error` values are `Option String` (`none` is
`nil`), and a `for ... range` loop that appends to a slice or to a string is a
left fold.  The parts of the program that live in other files of the
repository (the column-mapping table, the schedule updates, ...) are the
fields of `Utils`; the file system seen through `encoding/csv` is a
`FileSystem`.  Output written with `fmt.Println` is not part of the model.

Go strings are byte sequences and the texts here are sequences of characters;
the two agree on everything the generator inspects, which is the ASCII quote,
the ASCII digits and the two signs.  `int` is the 64-bit `int`.
-/

namespace Form5500

/-! ## Data model -/

/-- The `utils.SQLRunner` value: a statement text and its description. -/
structure SQLRunner where
  Statement : String
  Description : String
deriving DecidableEq, Repr

/-- The `utils.Mapping` row, with the four fields this file reads. -/
structure Mapping where
  Alias : String
  LongForm : String
  ShortForm : String
  DataType : String
deriving DecidableEq, Repr

/-- The collaborators of the generator that are declared in other files:
the static column-mapping table, the index name of a mapping, and the three
statement builders for schedule updates, junk-row removal and the
materialized view. -/
structure Utils where
  TableMappings : List Mapping
  IndexName : Mapping → String
  getUpdateFromSchedulesStatements : String → String → List SQLRunner
  getRemoveNoAssetRecords : SQLRunner
  getCreateMaterializedViewStatement : SQLRunner

/-- One result of `csvReader.Read()`: a record, or a read error with its text.
The end of the list is `io.EOF`. -/
inductive ReadResult where
  | record (fields : List String)
  | failure (msg : String)
deriving DecidableEq, Repr

/-- What `os.Open` followed by a `csv.Reader` gives for a file name: the error
text of a failed open, or the successive results of `Read`. -/
abbrev FileSystem := String → Except String (List ReadResult)

/-! ## Go standard library functions used by the generator -/

namespace strings

/-- Go `strings.Join`: nothing for no element, the element itself for one,
otherwise the first element followed by separator and element for each of the
rest. -/
def Join : List String → String → String
  | [], _ => ""
  | [e], _ => e
  | e :: rest, sep => rest.foldl (fun b s => b ++ sep ++ s) e

/-- Left-to-right scan of `strings.Replace` with a non-empty pattern: at a
position where `old` starts, `new` is written and the rest of the occurrence
is skipped (`skip` characters are still to be skipped). -/
def replaceScan (old new : List Char) : Nat → List Char → List Char
  | _, [] => []
  | skip + 1, _ :: cs => replaceScan old new skip cs
  | 0, c :: cs =>
    if old.isPrefixOf (c :: cs) then new ++ replaceScan old new (old.length - 1) cs
    else c :: replaceScan old new 0 cs

/-- Go `strings.Replace(s, old, new, -1)`: every non-overlapping occurrence of
`old`, leftmost first, is replaced by `new`; an empty `old` matches before
every character and at the end. -/
def ReplaceAll (s old new : String) : String :=
  if old.data = [] then ⟨new.data ++ s.data.flatMap (fun c => c :: new.data)⟩
  else ⟨replaceScan old.data new.data 0 s.data⟩

end strings

namespace strconv

/-- The two kinds of `strconv.NumError`. -/
inductive NumError where
  | ErrSyntax
  | ErrRange
deriving DecidableEq, Repr

/-- Largest `uint64`. -/
def maxUint64 : Nat := 2 ^ 64 - 1

/-- Digit loop of Go `strconv.ParseUint(s, 10, 64)`: a character that is not
a decimal digit is a syntax error with value 0; an overflow stops the loop at
once with the largest value and a range error. -/
def parseUintLoop : List Char → Nat → Nat × Option NumError
  | [], n => (n, none)
  | c :: cs, n =>
    if '0' ≤ c ∧ c ≤ '9' then
      let d := c.toNat - 48
      if n ≥ maxUint64 / 10 + 1 then (maxUint64, some NumError.ErrRange)
      else
        let n10 := (n * 10) % 2 ^ 64
        let n1 := (n10 + d) % 2 ^ 64
        if n1 < n10 ∨ n1 > maxUint64 then (maxUint64, some NumError.ErrRange)
        else parseUintLoop cs n1
    else (0, some NumError.ErrSyntax)

/-- Go `strconv.ParseUint(s, 10, 64)`. -/
def ParseUint (s : List Char) : Nat × Option NumError :=
  if s = [] then (0, some NumError.ErrSyntax) else parseUintLoop s 0

/-- Go `strconv.ParseInt(s, 10, 0)` on a platform with 64-bit `int`: an
optional sign, then `ParseUint`; a syntax error gives 0, a value out of range
gives the nearest bound together with a range error. -/
def ParseInt (s : List Char) : Int × Option NumError :=
  match s with
  | [] => (0, some NumError.ErrSyntax)
  | c :: cs =>
    let neg : Bool := c = '-'
    let body := if c = '+' ∨ c = '-' then cs else c :: cs
    let r := ParseUint body
    if r.2 = some NumError.ErrSyntax then (0, some NumError.ErrSyntax)
    else if neg = false ∧ r.1 ≥ 2 ^ 63 then (2 ^ 63 - 1, some NumError.ErrRange)
    else if neg = true ∧ r.1 > 2 ^ 63 then (-(2 ^ 63), some NumError.ErrRange)
    else (if neg then -(r.1 : Int) else (r.1 : Int), none)

/-- Go `strconv.Atoi`, which is `ParseInt(s, 10, 0)` converted to `int`. -/
def Atoi (s : String) : Int × Option NumError := ParseInt s.data

end strconv

/-- The `%d` verb of `fmt.Sprintf` on an `int`. -/
def fmtInt (i : Int) : String := toString i

/-- The `%v` verb of `fmt` on a `[]string`: the elements separated by blanks,
in square brackets. -/
def fmtSlice (line : List String) : String := "[" ++ strings.Join line " " ++ "]"

/-! ## The generator -/

/-- The constant `form5500Search`. -/
def form5500Search : String := "form_5500_search"

/-- Source function `getCreateIndexStatement`. -/
def getCreateIndexStatement (u : Utils) (mapping : Mapping) : SQLRunner :=
  { Statement := "CREATE INDEX " ++ u.IndexName mapping ++ " ON form5500_search_view ("
      ++ mapping.Alias ++ ");"
    Description := "Creating index " ++ u.IndexName mapping }

/-- Source function `getSearchTableColumns`: the three loops append to `cols`. -/
def getSearchTableColumns (u : Utils) : String :=
  let cols := u.TableMappings.foldl (fun cols row => cols ++ (row.Alias ++ " " ++ row.DataType ++ ", ")) ""
  let cols := cols ++ "rk_company_id int, "
  let providerCols := ["rk_name", "rk_ein", "tpa_name", "tpa_ein", "advisor_name", "advisor_ein"]
  let cols := providerCols.foldl (fun cols col => cols ++ (col ++ " text,")) cols
  let investmentTypes := ["inv_collective_trusts", "inv_separate_accounts", "inv_mutual_funds",
    "inv_general_accounts", "inv_company_stock"]
  let cols := investmentTypes.foldl (fun cols col => cols ++ (col ++ " boolean,")) cols
  cols ++ "table_origin text"

/-- Source function `getDropAndCreateSearchTableStatements`. -/
def getDropAndCreateSearchTableStatements (u : Utils) : List SQLRunner :=
  let statements : List SQLRunner := []
  let statements := statements ++ [{ Statement := "DROP TABLE IF EXISTS " ++ form5500Search ++ " CASCADE;"
                                     Description := "drop form5500_search table" }]
  let statements := statements ++ [{ Statement := "CREATE TABLE " ++ form5500Search ++ " ("
                                       ++ getSearchTableColumns u ++ ");"
                                     Description := "create form5500_search table" }]
  statements

/-- Source function `selectLongFormTable`. -/
def selectLongFormTable (u : Utils) (year sec : String) : String :=
  let statement := "   SELECT "
  let statement := u.TableMappings.foldl
    (fun statement row => statement ++ (row.LongForm ++ " as " ++ row.Alias ++ ", ")) statement
  statement ++ ("'" ++ year ++ "_" ++ sec ++ "' as table_origin from f_5500_" ++ year ++ "_" ++ sec
    ++ " as f_" ++ year)

/-- Source function `selectShortFormTable`. -/
def selectShortFormTable (u : Utils) (year sec : String) : String :=
  let statement := "   SELECT "
  let statement := u.TableMappings.foldl
    (fun statement row => statement ++ (row.ShortForm ++ " as " ++ row.Alias ++ ", ")) statement
  statement ++ ("'sf_" ++ year ++ "_" ++ sec ++ "' as table_origin from f_5500_sf_" ++ year ++ "_" ++ sec
    ++ " as f_" ++ year ++ "_sf")

/-- Source function `getDropAndCreateRkMappingTableStatements`. -/
def getDropAndCreateRkMappingTableStatements : List SQLRunner :=
  let statements : List SQLRunner := []
  let statements := statements ++ [{ Statement := "DROP TABLE IF EXISTS sched_c_provider_to_fbi_rk_company_id_mappings;"
                                     Description := "drop sched_c_provider_to_fbi_rk_company_id_mappings table" }]
  let statements := statements ++ [{ Statement := "CREATE TABLE sched_c_provider_to_fbi_rk_company_id_mappings ( sched_c_provider_name text PRIMARY KEY, fbi_company_id INTEGER NOT NULL);"
                                     Description := "create sched_c_provider_to_fbi_rk_company_id_mappings table" }]
  statements

/-- Source function `getUpdateRkMappings`. -/
def getUpdateRkMappings : SQLRunner :=
  { Statement := "UPDATE  form_5500_search\n\tSET rk_company_id = fbi_company_id\n\tFROM sched_c_provider_to_fbi_rk_company_id_mappings\n\tWHERE rk_name=sched_c_provider_name"
    Description := "Updating records with new rk mappings" }

/-- The text of the error returned when the reading loop stops at a record
with two empty fields. -/
def noDataMessage : String :=
  "Found a line with no data, stopping reading now, repair your file if data was truncated."

/-- The statement `importRkMappings` builds for an escaped name and an id. -/
def rkInsertStatement (name : String) (id : Int) : SQLRunner :=
  { Statement := "INSERT INTO sched_c_provider_to_fbi_rk_company_id_mappings (sched_c_provider_name, fbi_company_id) VALUES ('"
      ++ name ++ "'," ++ fmtInt id ++ ");"
    Description := "Importing rk company id mapping" }

/-- The reading loop of `importRkMappings`: `statements` is the slice built so
far; the result is the pair returned by the function. -/
def importRkMappingsLoop : List ReadResult → List SQLRunner → List SQLRunner × Option String
  | [], statements => (statements, none)
  | ReadResult.failure err :: _, statements => (statements, some ("Error reading file: " ++ err))
  | ReadResult.record line :: rest, statements =>
    match line with
    | [l0, l1] =>
      if l0 = "" ∧ l1 = "" then (statements, some noDataMessage)
      else
        let name := strings.ReplaceAll l0 "'" "''"
        let id := (strconv.Atoi l1).1
        if id ≠ 0 then importRkMappingsLoop rest (statements ++ [rkInsertStatement name id])
        else importRkMappingsLoop rest statements
    | _ => (statements, some ("Unexpected line: " ++ fmtSlice line))

/-- Source function `importRkMappings`. -/
def importRkMappings (fs : FileSystem) (fname : String) : List SQLRunner × Option String :=
  match fs fname with
  | Except.error err => ([], some ("Error opening file: " ++ err))
  | Except.ok reads => importRkMappingsLoop reads []

/-- Source function `validateCsvFile`: the file opens and its first record is
read without an error (`io.EOF` is an error here). -/
def validateCsvFile (fs : FileSystem) (fname : String) : Option String :=
  match fs fname with
  | Except.error err => some ("Error opening file: " ++ err)
  | Except.ok [] => some "Error reading file: EOF"
  | Except.ok (ReadResult.failure err :: _) => some ("Error reading file: " ++ err)
  | Except.ok (ReadResult.record _ :: _) => none

/-- The column list `cols` of `getRebuildStatements`. -/
def insertColumns (u : Utils) : String :=
  let cols := u.TableMappings.foldl (fun cols row => cols ++ (row.Alias ++ ",")) ""
  cols ++ "table_origin"

/-- The slice `unionTables` of `getRebuildStatements`. -/
def unionTables (u : Utils) (sec : String) (years : List String) : List String :=
  years.foldl (fun unionTables year =>
    (unionTables ++ [selectLongFormTable u year sec]) ++ [selectShortFormTable u year sec]) []

/-- The text `selectStatement` of `getRebuildStatements`. -/
def selectStatement (u : Utils) (sec : String) (years : List String) : String :=
  strings.Join (unionTables u sec years) "\n      UNION ALL\n"

/-- The runner appended for `insertStatement` in `getRebuildStatements`. -/
def insertRunner (u : Utils) (sec : String) (years : List String) : SQLRunner :=
  { Statement := "INSERT INTO form_5500_search (" ++ insertColumns u ++ ") SELECT " ++ insertColumns u
      ++ " FROM (\n" ++ selectStatement u sec years ++ "\n) as f_s;"
    Description := "Inserting records into form_5500_search" }

/-- Source function `getRebuildStatements`.  The value of
`importRkMappings(rkMappingFile)` is not used by the source, so it does not
appear in the result. -/
def getRebuildStatements (u : Utils) (fs : FileSystem) (sec : String) (years : List String)
    (rkMappingFile : String) : List SQLRunner :=
  let executableStatements : List SQLRunner := []
  let executableStatements := (getDropAndCreateSearchTableStatements u).foldl
    (fun acc statement => acc ++ [statement]) executableStatements
  let executableStatements := executableStatements ++ [insertRunner u sec years]
  let executableStatements := years.foldl (fun acc year =>
    (u.getUpdateFromSchedulesStatements sec year).foldl (fun acc statement => acc ++ [statement]) acc)
    executableStatements
  let executableStatements := executableStatements ++ [u.getRemoveNoAssetRecords]
  let executableStatements :=
    match validateCsvFile fs rkMappingFile with
    | some _ => executableStatements
    | none =>
      let executableStatements := getDropAndCreateRkMappingTableStatements.foldl
        (fun acc statement => acc ++ [statement]) executableStatements
      let _ := importRkMappings fs rkMappingFile
      executableStatements
  let executableStatements := executableStatements ++ [getUpdateRkMappings]
  let executableStatements := executableStatements ++ [u.getCreateMaterializedViewStatement]
  u.TableMappings.foldl (fun acc row => acc ++ [getCreateIndexStatement u row]) executableStatements

/-! ## Specification-side vocabulary -/

/-- Concatenation of a list of texts, in order. -/
def concatAll : List String → String
  | [] => ""
  | s :: rest => s ++ concatAll rest

/-- A two-field CSV record as a result of `Read`. -/
def twoFields (r : String × String) : ReadResult := ReadResult.record [r.1, r.2]

/-- A record with data: not both fields empty. -/
def hasData (r : String × String) : Bool := !(r.1 = "" && r.2 = "")

/-- The INSERT statements generated from two-field records, in order: one for
each record whose second field converts to a non-zero id. -/
def rkStatementsOf (records : List (String × String)) : List SQLRunner :=
  records.filterMap (fun r =>
    if (strconv.Atoi r.2).1 ≠ 0 then
      some (rkInsertStatement (strings.ReplaceAll r.1 "'" "''") (strconv.Atoi r.2).1)
    else none)

/-- The two-field records with data that the reading loop consumes: the
records of the file up to, and not including, the first read that is an
error, a record without exactly two fields, or a record with both fields
empty. -/
def recordsRead : List ReadResult → List (String × String)
  | ReadResult.record [l0, l1] :: rest =>
    if l0 = "" ∧ l1 = "" then [] else (l0, l1) :: recordsRead rest
  | _ => []

/-- The single quote character. -/
def quote : Char := Char.ofNat 39

/-- Lengths of the maximal runs of single quotes in a text, left to right;
`cur` is the length of the run being read. -/
def quoteRunsFrom : Nat → List Char → List Nat
  | cur, [] => if cur = 0 then [] else [cur]
  | cur, c :: cs =>
    if c = quote then quoteRunsFrom (cur + 1) cs
    else if cur = 0 then quoteRunsFrom 0 cs
    else cur :: quoteRunsFrom 0 cs

/-- Lengths of the maximal runs of single quotes in a text. -/
def quoteRuns (s : String) : List Nat := quoteRunsFrom 0 s.data

/-- A column definition of a CREATE TABLE text: name, type and the separator
written after it. -/
structure ColumnDef where
  name : String
  type : String
  separator : String
deriving DecidableEq, Repr

/-- Text of a column definition. -/
def ColumnDef.render (c : ColumnDef) : String := c.name ++ " " ++ c.type ++ c.separator

/-- The columns the search table is specified to declare: each alias with its
data type, `rk_company_id int`, six provider text columns, five `inv_*`
boolean columns and `table_origin text`, which has no separator after it. -/
def declaredColumns (u : Utils) : List ColumnDef :=
  u.TableMappings.map (fun m => { name := m.Alias, type := m.DataType, separator := ", " })
  ++ [{ name := "rk_company_id", type := "int", separator := ", " }]
  ++ ["rk_name", "rk_ein", "tpa_name", "tpa_ein", "advisor_name", "advisor_ein"].map
      (fun c => { name := c, type := "text", separator := "," })
  ++ ["inv_collective_trusts", "inv_separate_accounts", "inv_mutual_funds", "inv_general_accounts",
      "inv_company_stock"].map (fun c => { name := c, type := "boolean", separator := "," })
  ++ [{ name := "table_origin", type := "text", separator := "" }]

/-- The output column names of the INSERT: the aliases in mapping order, then
`table_origin`. -/
def outputColumns (u : Utils) : List String :=
  u.TableMappings.map (fun m => m.Alias) ++ ["table_origin"]

/-- A select item `expression as name`. -/
def selectItem (expression name : String) : String := expression ++ " as " ++ name

/-- The text a statement must start with to be a CREATE INDEX statement. -/
def createIndexPrefix : String := "CREATE INDEX "

/-- The text an INSERT into the recordkeeper mapping table starts with. -/
def rkInsertPrefix : String := "INSERT INTO sched_c_provider_to_fbi_rk_company_id_mappings"

/-- Whether a text starts with a prefix. -/
def startsWith (pre s : String) : Bool := pre.data.isPrefixOf s.data

/-! ## A small instance for evaluating the definitions -/

/-- An instance of `Utils`: the mapping table and the statement builders are
declared in other files, so two illustrative mapping rows, two illustrative
schedule updates per year and illustrative texts for the junk-row removal and
the materialized view stand in for them. -/
def sampleUtils : Utils :=
  { TableMappings :=
      [{ Alias := "sponsor_name", LongForm := "spons_dfe_name", ShortForm := "sf_sponsor_name", DataType := "text" },
       { Alias := "ein", LongForm := "spons_dfe_ein", ShortForm := "sf_spons_ein", DataType := "int" }]
    IndexName := fun m => "idx_" ++ m.Alias
    getUpdateFromSchedulesStatements := fun sec year =>
      [{ Statement := "UPDATE form_5500_search SET total_assets = h.tot_assets FROM f_sch_h_" ++ year ++ "_" ++ sec ++ " as h;"
         Description := "schedule H" },
       { Statement := "UPDATE form_5500_search SET rk_name = c.provider FROM f_sch_c_" ++ year ++ "_" ++ sec ++ " as c;"
         Description := "schedule C" }]
    getRemoveNoAssetRecords :=
      { Statement := "DELETE FROM form_5500_search WHERE total_assets IS NULL;", Description := "remove junk rows" }
    getCreateMaterializedViewStatement :=
      { Statement := "CREATE MATERIALIZED VIEW form5500_search_view AS SELECT * FROM form_5500_search;"
        Description := "create view" } }

/-- The sample instance with the mapping row of `ein` listed twice. -/
def duplicateRowUtils : Utils :=
  { sampleUtils with
    TableMappings :=
      [{ Alias := "ein", LongForm := "spons_dfe_ein", ShortForm := "sf_spons_ein", DataType := "int" },
       { Alias := "ein", LongForm := "spons_dfe_ein", ShortForm := "sf_spons_ein", DataType := "int" }] }

/-- A file system with three mapping files; every other name cannot be
opened. -/
def sampleFs : FileSystem := fun fname =>
  if fname = "rk_mappings.csv" then
    Except.ok [ReadResult.record ["sched_c_provider_name", "fbi_company_id"],
               ReadResult.record ["ACME", "5"]]
  else if fname = "truncated.csv" then
    Except.ok [ReadResult.record ["name", "id"], ReadResult.record ["O'Neil", "12"],
               ReadResult.record ["", ""], ReadResult.record ["LATER", "7"],
               ReadResult.failure "record on line 5: wrong number of fields"]
  else if fname = "big_id.csv" then
    Except.ok [ReadResult.record ["ACME", "99999999999999999999"]]
  else Except.error ("open " ++ fname ++ ": no such file or directory")

/-! ## Loops as closed forms -/

/-- A loop that appends each element to a slice appends the whole list. -/
theorem foldl_append_singleton {α : Type} (l init : List α) :
    l.foldl (fun acc x => acc ++ [x]) init = init ++ l := by
  induction l generalizing init with
  | nil => simp
  | cons a l ih => simp [ih]

/-- A loop that appends one list per element appends their concatenation. -/
theorem foldl_append_flat {α β : Type} (f : α → List β) (l : List α) (init : List β) :
    l.foldl (fun acc x => acc ++ f x) init = init ++ l.flatMap f := by
  induction l generalizing init with
  | nil => simp
  | cons a l ih => simp [ih]

/-- A loop that appends one element per element appends their image. -/
theorem foldl_append_image {α β : Type} (f : α → β) (l : List α) (init : List β) :
    l.foldl (fun acc x => acc ++ [f x]) init = init ++ l.map f := by
  induction l generalizing init with
  | nil => simp
  | cons a l ih => simp [ih]

/-- A loop that appends one text per element appends their concatenation. -/
theorem foldl_append_text {α : Type} (f : α → String) (l : List α) (init : String) :
    l.foldl (fun acc x => acc ++ f x) init = init ++ concatAll (l.map f) := by
  induction l generalizing init with
  | nil => simp [concatAll]
  | cons a l ih => simp [ih, concatAll, String.append_assoc]

/-- Closed form of `getRebuildStatements`. -/
theorem getRebuildStatements_eq (u : Utils) (fs : FileSystem) (sec : String) (years : List String)
    (rkMappingFile : String) :
    getRebuildStatements u fs sec years rkMappingFile =
      getDropAndCreateSearchTableStatements u ++ [insertRunner u sec years]
      ++ years.flatMap (u.getUpdateFromSchedulesStatements sec)
      ++ [u.getRemoveNoAssetRecords]
      ++ (if validateCsvFile fs rkMappingFile = none then getDropAndCreateRkMappingTableStatements else [])
      ++ [getUpdateRkMappings, u.getCreateMaterializedViewStatement]
      ++ u.TableMappings.map (getCreateIndexStatement u) := by
  unfold getRebuildStatements
  cases h : validateCsvFile fs rkMappingFile with
  | none =>
    simp only [foldl_append_singleton, foldl_append_image, foldl_append_flat]
    simp
  | some e =>
    simp only [foldl_append_singleton, foldl_append_image, foldl_append_flat]
    simp

/-- Text of the two statements of `getDropAndCreateSearchTableStatements`. -/
theorem getDropAndCreateSearchTableStatements_eq (u : Utils) :
    getDropAndCreateSearchTableStatements u =
      [{ Statement := "DROP TABLE IF EXISTS form_5500_search CASCADE;"
         Description := "drop form5500_search table" },
       { Statement := "CREATE TABLE form_5500_search (" ++ getSearchTableColumns u ++ ");"
         Description := "create form5500_search table" }] := by
  unfold getDropAndCreateSearchTableStatements
  rw [show "DROP TABLE IF EXISTS " ++ form5500Search ++ " CASCADE;"
        = "DROP TABLE IF EXISTS form_5500_search CASCADE;" by decide,
      show "CREATE TABLE " ++ form5500Search ++ " (" = "CREATE TABLE form_5500_search (" by decide]
  rfl

/-- Length of a concatenation of lists, as a sum over the elements. -/
theorem length_flatMap_sum {α β : Type} (f : α → List β) (l : List α) :
    (l.flatMap f).length = (l.map (fun x => (f x).length)).sum := by
  induction l with
  | nil => simp
  | cons a l ih => simp [ih]

/-- C1 (amended): the list returned by `getRebuildStatements` is, in order, the
drop and the create of `form_5500_search`, the INSERT, the schedule updates of
each year in the order of the years, the remove-no-asset-records statement,
the drop and create of the mapping table exactly when the file validates, the
update-rk-mappings statement, the materialized view and the index statements;
its length is 6 plus the number of schedule updates, plus 2 when the file
validates, plus the number of column mappings. -/
theorem getRebuildStatements_pipeline (u : Utils) (fs : FileSystem) (sec : String)
    (years : List String) (rkMappingFile : String) :
    getRebuildStatements u fs sec years rkMappingFile =
      [{ Statement := "DROP TABLE IF EXISTS form_5500_search CASCADE;"
         Description := "drop form5500_search table" },
       { Statement := "CREATE TABLE form_5500_search (" ++ getSearchTableColumns u ++ ");"
         Description := "create form5500_search table" },
       insertRunner u sec years]
      ++ years.flatMap (u.getUpdateFromSchedulesStatements sec)
      ++ [u.getRemoveNoAssetRecords]
      ++ (if validateCsvFile fs rkMappingFile = none then
            [{ Statement := "DROP TABLE IF EXISTS sched_c_provider_to_fbi_rk_company_id_mappings;"
               Description := "drop sched_c_provider_to_fbi_rk_company_id_mappings table" },
             { Statement := "CREATE TABLE sched_c_provider_to_fbi_rk_company_id_mappings ( sched_c_provider_name text PRIMARY KEY, fbi_company_id INTEGER NOT NULL);"
               Description := "create sched_c_provider_to_fbi_rk_company_id_mappings table" }]
          else [])
      ++ [getUpdateRkMappings, u.getCreateMaterializedViewStatement]
      ++ u.TableMappings.map (getCreateIndexStatement u)
    ∧ (∃ rest, (insertRunner u sec years).Statement = "INSERT INTO form_5500_search" ++ rest)
    ∧ (getRebuildStatements u fs sec years rkMappingFile).length =
        6 + (years.map (fun year => (u.getUpdateFromSchedulesStatements sec year).length)).sum
          + (if validateCsvFile fs rkMappingFile = none then 2 else 0) + u.TableMappings.length := by
  refine ⟨?_, ?_, ?_⟩
  · rw [getRebuildStatements_eq, getDropAndCreateSearchTableStatements_eq]
    rfl
  · refine ⟨" (" ++ insertColumns u ++ ") SELECT " ++ insertColumns u
      ++ " FROM (\n" ++ selectStatement u sec years ++ "\n) as f_s;", ?_⟩
    simp only [insertRunner, String.append_assoc]
    rfl
  · rw [getRebuildStatements_eq, getDropAndCreateSearchTableStatements_eq]
    by_cases h : validateCsvFile fs rkMappingFile = none
    · simp only [h, if_true, getDropAndCreateRkMappingTableStatements, List.length_append,
        List.length_cons, List.length_nil, List.length_map, length_flatMap_sum]
      omega
    · simp only [h, if_false, List.length_append, List.length_cons, List.length_nil,
        List.length_map, length_flatMap_sum]
      omega

/-- C1 as stated fails: with one year, two schedule updates, a file that
validates and two column mappings the list has 12 statements, not
5 + 2 + 2 + 2. -/
theorem getRebuildStatements_length_not_five :
    (getRebuildStatements sampleUtils sampleFs "latest" ["2015"] "rk_mappings.csv").length = 12
    ∧ (getRebuildStatements sampleUtils sampleFs "latest" ["2015"] "rk_mappings.csv").length
      ≠ 5 + (["2015"].map (fun year =>
              (sampleUtils.getUpdateFromSchedulesStatements "latest" year).length)).sum
          + (if validateCsvFile sampleFs "rk_mappings.csv" = none then 2 else 0)
          + sampleUtils.TableMappings.length := by
  decide

/-- A text starts with each of its prefixes. -/
theorem startsWith_append (p x : String) : startsWith p (p ++ x) = true := by
  simp [startsWith, String.data_append]

/-- A text that extends one not starting with `p`, and at least as long as
`p`, does not start with `p`. -/
theorem startsWith_append_false (p a x : String) (hlen : p.length ≤ a.length)
    (h : startsWith p a = false) : startsWith p (a ++ x) = false := by
  cases hc : startsWith p (a ++ x) with
  | false => rfl
  | true =>
    exfalso
    simp only [startsWith, String.data_append, List.isPrefixOf_iff_prefix] at hc
    have hp : p.data <+: a.data :=
      List.prefix_of_prefix_length_le hc (List.prefix_append _ _) hlen
    have : startsWith p a = true := by
      simpa [startsWith, List.isPrefixOf_iff_prefix] using hp
    rw [h] at this
    exact Bool.noConfusion this

/-- An index statement is a CREATE INDEX statement. -/
theorem getCreateIndexStatement_startsWith (u : Utils) (m : Mapping) :
    startsWith createIndexPrefix (getCreateIndexStatement u m).Statement = true := by
  simp only [getCreateIndexStatement, String.append_assoc]
  exact startsWith_append _ _

/-- No statement that precedes the index statements and is built in this file
is a CREATE INDEX statement. -/
theorem startsWith_createIndex_local (u : Utils) (fs : FileSystem) (sec : String)
    (years : List String) (rkMappingFile : String) (s : SQLRunner)
    (hs : s ∈ getDropAndCreateSearchTableStatements u ++ [insertRunner u sec years]
      ++ (if validateCsvFile fs rkMappingFile = none then getDropAndCreateRkMappingTableStatements
          else [])
      ++ [getUpdateRkMappings]) :
    startsWith createIndexPrefix s.Statement = false := by
  have hcreate : startsWith createIndexPrefix
      ("CREATE TABLE form_5500_search (" ++ getSearchTableColumns u ++ ");") = false := by
    rw [String.append_assoc]
    exact startsWith_append_false _ _ _ (by decide) (by decide)
  have hinsert : startsWith createIndexPrefix (insertRunner u sec years).Statement = false := by
    simp only [insertRunner, String.append_assoc]
    exact startsWith_append_false _ _ _ (by decide) (by decide)
  have hrk : ∀ t ∈ getDropAndCreateRkMappingTableStatements,
      startsWith createIndexPrefix t.Statement = false := by decide
  rw [getDropAndCreateSearchTableStatements_eq] at hs
  simp only [List.mem_append, List.mem_cons, List.mem_singleton, List.not_mem_nil, or_false] at hs
  rcases hs with ((((h | h) | h) | h) | h)
  · subst h; decide
  · subst h; exact hcreate
  · subst h; exact hinsert
  · by_cases hv : validateCsvFile fs rkMappingFile = none
    · rw [if_pos hv] at h; exact hrk s h
    · rw [if_neg hv] at h; exact absurd h (List.not_mem_nil _)
  · subst h; decide

/-- Dropping all but the last part of a list leaves the last part. -/
theorem drop_length_sub {α : Type} (a b : List α) :
    (a ++ b).drop ((a ++ b).length - b.length) = b := by
  rw [List.length_append, Nat.add_sub_cancel]
  exact List.drop_left a b

/-- A text that is not a CREATE INDEX statement is none of the index
statements. -/
theorem ne_index_statement (u : Utils) (m : Mapping) (s : SQLRunner)
    (hs : startsWith createIndexPrefix s.Statement = false) :
    (s.Statement == (getCreateIndexStatement u m).Statement) = false := by
  rw [beq_eq_false_iff_ne]
  intro heq
  have h := getCreateIndexStatement_startsWith u m
  rw [← heq, hs] at h
  exact Bool.noConfusion h

/-- Occurrences of an index statement in the whole list: the statements built
in this file before the index statements contribute none, so the count is that
among the statements built in other files plus that among the index statements
of the mapping table. -/
theorem count_index_statement (u : Utils) (fs : FileSystem) (sec : String)
    (years : List String) (rkMappingFile : String) (m : Mapping) :
    ((getRebuildStatements u fs sec years rkMappingFile).map (fun s => s.Statement)).count
        (getCreateIndexStatement u m).Statement
      = ((years.flatMap (u.getUpdateFromSchedulesStatements sec)
            ++ [u.getRemoveNoAssetRecords, u.getCreateMaterializedViewStatement]).map
          (fun s => s.Statement)).count (getCreateIndexStatement u m).Statement
        + ((u.TableMappings.map (getCreateIndexStatement u)).map (fun s => s.Statement)).count
            (getCreateIndexStatement u m).Statement := by
  have hloc := startsWith_createIndex_local u fs sec years rkMappingFile
  have hzero : ∀ l : List SQLRunner,
      (∀ s ∈ l, startsWith createIndexPrefix s.Statement = false) →
      (l.map (fun s => s.Statement)).count (getCreateIndexStatement u m).Statement = 0 := by
    intro l hl
    apply List.count_eq_zero_of_not_mem
    intro hmem
    obtain ⟨s, hs, heq⟩ := List.mem_map.mp hmem
    have h := ne_index_statement u m s (hl s hs)
    rw [beq_eq_false_iff_ne] at h
    exact h heq
  have hD := hzero (getDropAndCreateSearchTableStatements u)
    (fun s hs => hloc s (by simp only [List.mem_append]; exact Or.inl (Or.inl (Or.inl hs))))
  have hI := hzero [insertRunner u sec years]
    (fun s hs => hloc s (by simp only [List.mem_append]; exact Or.inl (Or.inl (Or.inr hs))))
  have hK := hzero (if validateCsvFile fs rkMappingFile = none
      then getDropAndCreateRkMappingTableStatements else [])
    (fun s hs => hloc s (by simp only [List.mem_append]; exact Or.inl (Or.inr hs)))
  have hG := hzero [getUpdateRkMappings]
    (fun s hs => hloc s (by simp only [List.mem_append]; exact Or.inr hs))
  have hsplit : getRebuildStatements u fs sec years rkMappingFile =
      getDropAndCreateSearchTableStatements u ++ [insertRunner u sec years]
      ++ years.flatMap (u.getUpdateFromSchedulesStatements sec)
      ++ [u.getRemoveNoAssetRecords]
      ++ (if validateCsvFile fs rkMappingFile = none then getDropAndCreateRkMappingTableStatements
          else [])
      ++ [getUpdateRkMappings] ++ [u.getCreateMaterializedViewStatement]
      ++ u.TableMappings.map (getCreateIndexStatement u) := by
    rw [getRebuildStatements_eq]; simp
  have hext : years.flatMap (u.getUpdateFromSchedulesStatements sec)
      ++ [u.getRemoveNoAssetRecords, u.getCreateMaterializedViewStatement]
      = years.flatMap (u.getUpdateFromSchedulesStatements sec)
        ++ [u.getRemoveNoAssetRecords] ++ [u.getCreateMaterializedViewStatement] := by simp
  rw [hsplit, hext]
  simp only [List.map_append, List.count_append, hD, hI, hK, hG]
  omega

/-- C5 (amended): the list returned by `getRebuildStatements` ends with the
create-materialized-view statement followed by the index statements, one per
row of the mapping table in mapping order, each with the text
`CREATE INDEX <IndexName> ON form5500_search_view (<Alias>);`; the statement
of every mapping is in the list, and it occurs as many times as it occurs
among the statements built in other files plus among the index statements of
the rows of the table. -/
theorem getRebuildStatements_indexes (u : Utils) (fs : FileSystem) (sec : String)
    (years : List String) (rkMappingFile : String) :
    getRebuildStatements u fs sec years rkMappingFile =
        (getDropAndCreateSearchTableStatements u ++ [insertRunner u sec years]
          ++ years.flatMap (u.getUpdateFromSchedulesStatements sec)
          ++ [u.getRemoveNoAssetRecords]
          ++ (if validateCsvFile fs rkMappingFile = none
              then getDropAndCreateRkMappingTableStatements else [])
          ++ [getUpdateRkMappings])
        ++ [u.getCreateMaterializedViewStatement]
        ++ u.TableMappings.map (getCreateIndexStatement u)
    ∧ (getRebuildStatements u fs sec years rkMappingFile).drop
        ((getRebuildStatements u fs sec years rkMappingFile).length - u.TableMappings.length)
        = u.TableMappings.map (getCreateIndexStatement u)
    ∧ (∀ m, (getCreateIndexStatement u m).Statement =
        "CREATE INDEX " ++ u.IndexName m ++ " ON form5500_search_view (" ++ m.Alias ++ ");")
    ∧ (∀ m ∈ u.TableMappings,
        "CREATE INDEX " ++ u.IndexName m ++ " ON form5500_search_view (" ++ m.Alias ++ ");"
          ∈ (getRebuildStatements u fs sec years rkMappingFile).map (fun s => s.Statement))
    ∧ (∀ m,
        ((getRebuildStatements u fs sec years rkMappingFile).map (fun s => s.Statement)).count
          ("CREATE INDEX " ++ u.IndexName m ++ " ON form5500_search_view (" ++ m.Alias ++ ");")
        = ((years.flatMap (u.getUpdateFromSchedulesStatements sec)
              ++ [u.getRemoveNoAssetRecords, u.getCreateMaterializedViewStatement]).map
            (fun s => s.Statement)).count
            ("CREATE INDEX " ++ u.IndexName m ++ " ON form5500_search_view (" ++ m.Alias ++ ");")
          + (u.TableMappings.map (fun row =>
              "CREATE INDEX " ++ u.IndexName row ++ " ON form5500_search_view (" ++ row.Alias ++ ");")).count
            ("CREATE INDEX " ++ u.IndexName m ++ " ON form5500_search_view (" ++ m.Alias ++ ");")) := by
  have hform : getRebuildStatements u fs sec years rkMappingFile =
        (getDropAndCreateSearchTableStatements u ++ [insertRunner u sec years]
          ++ years.flatMap (u.getUpdateFromSchedulesStatements sec)
          ++ [u.getRemoveNoAssetRecords]
          ++ (if validateCsvFile fs rkMappingFile = none
              then getDropAndCreateRkMappingTableStatements else [])
          ++ [getUpdateRkMappings])
        ++ [u.getCreateMaterializedViewStatement]
        ++ u.TableMappings.map (getCreateIndexStatement u) := by
    rw [getRebuildStatements_eq]; simp
  refine ⟨hform, ?_, fun m => rfl, ?_, ?_⟩
  · have h := drop_length_sub
      ((getDropAndCreateSearchTableStatements u ++ [insertRunner u sec years]
          ++ years.flatMap (u.getUpdateFromSchedulesStatements sec)
          ++ [u.getRemoveNoAssetRecords]
          ++ (if validateCsvFile fs rkMappingFile = none
              then getDropAndCreateRkMappingTableStatements else [])
          ++ [getUpdateRkMappings])
        ++ [u.getCreateMaterializedViewStatement])
      (u.TableMappings.map (getCreateIndexStatement u))
    rw [List.length_map] at h
    rw [hform]
    exact h
  · intro m hm
    rw [hform]
    exact List.mem_map.mpr ⟨getCreateIndexStatement u m,
      List.mem_append_right _ (List.mem_map.mpr ⟨m, hm, rfl⟩), rfl⟩
  · intro m
    have h := count_index_statement u fs sec years rkMappingFile m
    rw [List.map_map] at h
    exact h

/-- C5 as stated fails when two rows of the mapping table give the same index
statement: with the row of `ein` listed twice the statement
`CREATE INDEX idx_ein ON form5500_search_view (ein);` is in the list twice. -/
theorem getRebuildStatements_index_twice :
    ({ Alias := "ein", LongForm := "spons_dfe_ein", ShortForm := "sf_spons_ein", DataType := "int" }
        : Mapping) ∈ duplicateRowUtils.TableMappings
    ∧ ((getRebuildStatements duplicateRowUtils sampleFs "latest" ["2015"] "rk_mappings.csv").map
        (fun s => s.Statement)).count "CREATE INDEX idx_ein ON form5500_search_view (ein);" = 2
    ∧ ((getRebuildStatements duplicateRowUtils sampleFs "latest" ["2015"] "rk_mappings.csv").map
        (fun s => s.Statement)).count
          ("CREATE INDEX "
            ++ duplicateRowUtils.IndexName
                { Alias := "ein", LongForm := "spons_dfe_ein", ShortForm := "sf_spons_ein", DataType := "int" }
            ++ " ON form5500_search_view (" ++ "ein" ++ ");") ≠ 1 := by
  decide

/-- C4: a mapping file fails validation exactly when it cannot be opened or
its first record cannot be read; the list produced with such a file is the
list produced with a file that validates with exactly the drop and the create
of `sched_c_provider_to_fbi_rk_company_id_mappings` removed, and the
update-rk-mappings statement (the join on `rk_name=sched_c_provider_name`) is
in both lists. -/
theorem getRebuildStatements_bad_file (u : Utils) (fs : FileSystem) (sec : String)
    (years : List String) (bad good : String)
    (hbad : validateCsvFile fs bad ≠ none) (hgood : validateCsvFile fs good = none) :
    ((∃ err, fs bad = Except.error err) ∨ fs bad = Except.ok []
      ∨ ∃ err rest, fs bad = Except.ok (ReadResult.failure err :: rest))
    ∧ getRebuildStatements u fs sec years good =
        (getDropAndCreateSearchTableStatements u ++ [insertRunner u sec years]
          ++ years.flatMap (u.getUpdateFromSchedulesStatements sec) ++ [u.getRemoveNoAssetRecords])
        ++ [{ Statement := "DROP TABLE IF EXISTS sched_c_provider_to_fbi_rk_company_id_mappings;"
              Description := "drop sched_c_provider_to_fbi_rk_company_id_mappings table" },
            { Statement := "CREATE TABLE sched_c_provider_to_fbi_rk_company_id_mappings ( sched_c_provider_name text PRIMARY KEY, fbi_company_id INTEGER NOT NULL);"
              Description := "create sched_c_provider_to_fbi_rk_company_id_mappings table" }]
        ++ ([getUpdateRkMappings, u.getCreateMaterializedViewStatement]
          ++ u.TableMappings.map (getCreateIndexStatement u))
    ∧ getRebuildStatements u fs sec years bad =
        (getDropAndCreateSearchTableStatements u ++ [insertRunner u sec years]
          ++ years.flatMap (u.getUpdateFromSchedulesStatements sec) ++ [u.getRemoveNoAssetRecords])
        ++ ([getUpdateRkMappings, u.getCreateMaterializedViewStatement]
          ++ u.TableMappings.map (getCreateIndexStatement u))
    ∧ getUpdateRkMappings ∈ getRebuildStatements u fs sec years good
    ∧ getUpdateRkMappings ∈ getRebuildStatements u fs sec years bad
    ∧ getUpdateRkMappings.Statement =
        "UPDATE  form_5500_search\n\tSET rk_company_id = fbi_company_id\n\tFROM sched_c_provider_to_fbi_rk_company_id_mappings\n\tWHERE rk_name=sched_c_provider_name" := by
  refine ⟨?_, ?_, ?_, ?_, ?_, rfl⟩
  · unfold validateCsvFile at hbad
    cases hfs : fs bad with
    | error err => exact Or.inl ⟨err, rfl⟩
    | ok reads =>
      cases reads with
      | nil => exact Or.inr (Or.inl rfl)
      | cons r rest =>
        cases r with
        | record fields => rw [hfs] at hbad; exact absurd rfl hbad
        | failure err => exact Or.inr (Or.inr ⟨err, rest, rfl⟩)
  · rw [getRebuildStatements_eq, if_pos hgood]
    simp [getDropAndCreateRkMappingTableStatements]
  · rw [getRebuildStatements_eq, if_neg hbad]
    simp
  · rw [getRebuildStatements_eq]
    simp
  · rw [getRebuildStatements_eq]
    simp

/-- C4 at the sample instance: a file that cannot be opened against one that
validates. -/
theorem getRebuildStatements_bad_file_witness :
    validateCsvFile sampleFs "absent.csv" ≠ none
    ∧ validateCsvFile sampleFs "rk_mappings.csv" = none
    ∧ getUpdateRkMappings ∈ getRebuildStatements sampleUtils sampleFs "latest" ["2015"] "absent.csv" :=
  ⟨by decide, by decide,
    (getRebuildStatements_bad_file sampleUtils sampleFs "latest" ["2015"] "absent.csv"
      "rk_mappings.csv" (by decide) (by decide)).2.2.2.2.1⟩

/-- C3 fails on the code: `rk_mappings.csv` validates and `importRkMappings`
builds an INSERT for its row `ACME,5`, but no statement of the list returned
by `getRebuildStatements` is an INSERT into the mapping table: the statement
right after the CREATE TABLE of the mapping table is the update-rk-mappings
statement. -/
theorem getRebuildStatements_drops_mapping_inserts :
    validateCsvFile sampleFs "rk_mappings.csv" = none
    ∧ importRkMappings sampleFs "rk_mappings.csv" = ([rkInsertStatement "ACME" 5], none)
    ∧ (∀ s ∈ getRebuildStatements sampleUtils sampleFs "latest" ["2015"] "rk_mappings.csv",
        startsWith rkInsertPrefix s.Statement = false)
    ∧ ((getRebuildStatements sampleUtils sampleFs "latest" ["2015"] "rk_mappings.csv").drop 6).take 3
        = getDropAndCreateRkMappingTableStatements ++ [getUpdateRkMappings] := by
  decide

/-! ## Joined texts -/

/-- The accumulating loop of the library `String.intercalate` as a fold. -/
theorem intercalate_go_eq (sep : String) (l : List String) (acc : String) :
    String.intercalate.go acc sep l = l.foldl (fun b s => b ++ sep ++ s) acc := by
  induction l generalizing acc with
  | nil => rfl
  | cons a l ih => simp [String.intercalate.go, ih]

/-- Go `strings.Join` is the library `String.intercalate`. -/
theorem Join_eq_intercalate (l : List String) (sep : String) :
    strings.Join l sep = String.intercalate sep l := by
  cases l with
  | nil => rfl
  | cons e rest =>
    cases rest with
    | nil => rfl
    | cons e2 rest => simp [strings.Join, String.intercalate, intercalate_go_eq]

/-- The join fold as a concatenation of separator-prefixed elements. -/
theorem foldl_join_eq (sep : String) (l : List String) (acc : String) :
    l.foldl (fun b s => b ++ sep ++ s) acc = acc ++ concatAll (l.map (fun s => sep ++ s)) := by
  induction l generalizing acc with
  | nil => simp [concatAll]
  | cons a l ih =>
    simp only [List.foldl_cons, List.map_cons, concatAll]
    rw [ih]
    simp only [String.append_assoc]

/-- Joining a non-empty list whose last element is `x`: every earlier element
is followed by the separator. -/
theorem intercalate_append_singleton (sep : String) (l : List String) (x : String) :
    String.intercalate sep (l ++ [x]) = concatAll (l.map (fun s => s ++ sep)) ++ x := by
  cases l with
  | nil => simp [String.intercalate, String.intercalate.go, concatAll]
  | cons a l =>
    simp only [List.cons_append, String.intercalate, intercalate_go_eq, foldl_join_eq]
    induction l generalizing a with
    | nil => simp [concatAll, String.append_assoc]
    | cons b l ih =>
      have hb := ih b
      simp only [List.map_cons, concatAll] at hb
      simp only [List.cons_append, List.map_cons, concatAll, List.append_eq]
      rw [String.append_assoc sep b, hb]
      simp only [String.append_assoc]

/-- Length of a concatenation. -/
theorem concatAll_length (l : List String) :
    (concatAll l).length = (l.map String.length).sum := by
  induction l with
  | nil => rfl
  | cons a l ih => simp [concatAll, ih]

/-- Length of a joined text: the lengths of the elements plus one separator
between consecutive elements. -/
theorem intercalate_length (sep : String) (l : List String) :
    (String.intercalate sep l).length
      = (l.map String.length).sum + (l.length - 1) * sep.length := by
  cases l with
  | nil => simp [String.intercalate]
  | cons a l =>
    simp only [String.intercalate, intercalate_go_eq, foldl_join_eq, String.length_append,
      concatAll_length, List.map_map, List.map_cons, List.sum_cons, List.length_cons,
      Nat.add_sub_cancel]
    have h : ∀ l : List String,
        (l.map (String.length ∘ fun s => sep ++ s)).sum
          = (l.map String.length).sum + l.length * sep.length := by
      intro l
      induction l with
      | nil => simp
      | cons b l ih =>
        simp only [List.map_cons, List.sum_cons, Function.comp, String.length_append,
          List.length_cons] at ih ⊢
        rw [ih]; ring
    rw [h]; ring

/-- The slice `unionTables` holds the long-form and the short-form SELECT of
each year, in the order of the years. -/
theorem unionTables_eq (u : Utils) (sec : String) (years : List String) :
    unionTables u sec years
      = years.flatMap (fun year => [selectLongFormTable u year sec, selectShortFormTable u year sec]) := by
  unfold unionTables
  have h : ∀ (l : List String) (init : List String),
      l.foldl (fun unionTables year =>
        (unionTables ++ [selectLongFormTable u year sec]) ++ [selectShortFormTable u year sec]) init
      = init ++ l.flatMap (fun year => [selectLongFormTable u year sec, selectShortFormTable u year sec]) := by
    intro l
    induction l with
    | nil => simp
    | cons a l ih =>
      intro init
      simp only [List.foldl_cons]
      rw [ih]
      simp
  simpa using h years []

/-- The long-form SELECT: one `<LongForm> as <Alias>, ` per mapping, then the
`table_origin` literal and the table it names. -/
theorem selectLongFormTable_eq (u : Utils) (year sec : String) :
    selectLongFormTable u year sec =
      "   SELECT "
      ++ concatAll (u.TableMappings.map (fun m => m.LongForm ++ " as " ++ m.Alias ++ ", "))
      ++ "'" ++ (year ++ "_" ++ sec) ++ "' as table_origin from f_5500_" ++ (year ++ "_" ++ sec)
      ++ " as f_" ++ year := by
  unfold selectLongFormTable
  simp only [foldl_append_text, String.append_assoc]

/-- The short-form SELECT: one `<ShortForm> as <Alias>, ` per mapping, then
the `table_origin` literal and the table it names. -/
theorem selectShortFormTable_eq (u : Utils) (year sec : String) :
    selectShortFormTable u year sec =
      "   SELECT "
      ++ concatAll (u.TableMappings.map (fun m => m.ShortForm ++ " as " ++ m.Alias ++ ", "))
      ++ "'" ++ ("sf_" ++ year ++ "_" ++ sec) ++ "' as table_origin from f_5500_"
      ++ ("sf_" ++ year ++ "_" ++ sec) ++ " as f_" ++ year ++ "_sf" := by
  unfold selectShortFormTable
  rw [show "'sf_" = "'" ++ "sf_" by decide,
    show "' as table_origin from f_5500_sf_" = "' as table_origin from f_5500_" ++ "sf_" by decide]
  simp only [foldl_append_text, String.append_assoc]

/-- C2: the third statement returned by `getRebuildStatements` is the INSERT,
whose subquery is the long-form and the short-form SELECT of each year, in the
order of the years, joined by the UNION ALL separator: 2n texts and 2n-1
separators for n years, the empty text for no year; each SELECT lists
`<LongForm> as <Alias>` (or `<ShortForm> as <Alias>`) for every mapping in
mapping order and reads from the table `f_5500_` followed by the text of its
own `table_origin` literal. -/
theorem insert_subquery_is_union (u : Utils) (fs : FileSystem) (sec : String)
    (years : List String) (rkMappingFile : String) :
    (getRebuildStatements u fs sec years rkMappingFile)[2]? = some (insertRunner u sec years)
    ∧ (insertRunner u sec years).Statement =
        "INSERT INTO form_5500_search (" ++ insertColumns u ++ ") SELECT " ++ insertColumns u
          ++ " FROM (\n" ++ selectStatement u sec years ++ "\n) as f_s;"
    ∧ selectStatement u sec years =
        String.intercalate "\n      UNION ALL\n"
          (years.flatMap (fun year =>
            [selectLongFormTable u year sec, selectShortFormTable u year sec]))
    ∧ (years.flatMap (fun year =>
          [selectLongFormTable u year sec, selectShortFormTable u year sec])).length
        = 2 * years.length
    ∧ (selectStatement u sec years).length =
        ((years.flatMap (fun year =>
            [selectLongFormTable u year sec, selectShortFormTable u year sec])).map String.length).sum
          + (2 * years.length - 1) * "\n      UNION ALL\n".length
    ∧ selectStatement u sec [] = ""
    ∧ (∀ year, selectLongFormTable u year sec =
        "   SELECT "
        ++ concatAll (u.TableMappings.map (fun m => m.LongForm ++ " as " ++ m.Alias ++ ", "))
        ++ "'" ++ (year ++ "_" ++ sec) ++ "' as table_origin from f_5500_" ++ (year ++ "_" ++ sec)
        ++ " as f_" ++ year)
    ∧ (∀ year, selectShortFormTable u year sec =
        "   SELECT "
        ++ concatAll (u.TableMappings.map (fun m => m.ShortForm ++ " as " ++ m.Alias ++ ", "))
        ++ "'" ++ ("sf_" ++ year ++ "_" ++ sec) ++ "' as table_origin from f_5500_"
        ++ ("sf_" ++ year ++ "_" ++ sec) ++ " as f_" ++ year ++ "_sf") := by
  have hlen : (years.flatMap (fun year =>
      [selectLongFormTable u year sec, selectShortFormTable u year sec])).length
        = 2 * years.length := by
    rw [length_flatMap_sum]
    induction years with
    | nil => rfl
    | cons a l ih =>
      simp only [List.map_cons, List.sum_cons, List.length_cons, List.length_nil] at ih ⊢
      omega
  have hsel : selectStatement u sec years =
      String.intercalate "\n      UNION ALL\n"
        (years.flatMap (fun year =>
          [selectLongFormTable u year sec, selectShortFormTable u year sec])) := by
    rw [selectStatement, Join_eq_intercalate, unionTables_eq]
  refine ⟨?_, rfl, hsel, hlen, ?_, rfl, fun year => selectLongFormTable_eq u year sec,
    fun year => selectShortFormTable_eq u year sec⟩
  · rw [getRebuildStatements_eq, getDropAndCreateSearchTableStatements_eq]
    simp
  · rw [hsel, intercalate_length, hlen]

/-- The column list of the INSERT is the output column names joined by
commas. -/
theorem insertColumns_eq (u : Utils) :
    insertColumns u = String.intercalate "," (outputColumns u) := by
  unfold insertColumns outputColumns
  rw [intercalate_append_singleton, foldl_append_text]
  simp [List.map_map, Function.comp_def]

/-- Select items of a per-year SELECT: the expressions paired with the output
column names. -/
theorem selectItems_eq (u : Utils) (form : Mapping → String) (origin : String) :
    List.zipWith selectItem (u.TableMappings.map form ++ [origin]) (outputColumns u)
      = u.TableMappings.map (fun m => selectItem (form m) m.Alias)
        ++ [selectItem origin "table_origin"] := by
  unfold outputColumns
  rw [List.zipWith_append _ _ _ _ _ (by simp)]
  have h : ∀ l : List Mapping,
      List.zipWith selectItem (l.map form) (l.map (fun m => m.Alias))
        = l.map (fun m => selectItem (form m) m.Alias) := by
    intro l
    induction l with
    | nil => rfl
    | cons a l ih => simp [ih]
  rw [h]
  rfl

/-- Text of the create-table column list as the rendering of the declared
columns. -/
theorem getSearchTableColumns_eq (u : Utils) :
    getSearchTableColumns u = concatAll ((declaredColumns u).map ColumnDef.render) := by
  have hsplit : ∀ (l₁ l₂ : List String), concatAll (l₁ ++ l₂) = concatAll l₁ ++ concatAll l₂ := by
    intro l₁ l₂
    induction l₁ with
    | nil => simp [concatAll]
    | cons a l ih => simp [concatAll, ih, String.append_assoc]
  unfold getSearchTableColumns declaredColumns
  simp only [foldl_append_text, List.map_append, hsplit, List.map_map, List.map_cons,
    List.map_nil, concatAll, ColumnDef.render, Function.comp_def, List.foldl_cons,
    List.foldl_nil, String.append_assoc, String.append_empty, String.empty_append]
  rfl

/-- C6: the target column list and the outer SELECT list of the INSERT are the
same text, the mapping aliases in mapping order followed by `table_origin`,
joined by commas; every per-year SELECT lists items `expression as name` whose
names are those output columns in that order; every output column is declared
by the text of `getSearchTableColumns`, which is the rendering of each alias
with its data type, `rk_company_id int`, six provider text columns, five
`inv_*` boolean columns and `table_origin text`: the number of mappings plus 13
column definitions, ending without a comma. -/
theorem insert_fits_schema (u : Utils) (sec : String) (years : List String) :
    (insertRunner u sec years).Statement =
        "INSERT INTO form_5500_search (" ++ String.intercalate "," (outputColumns u) ++ ") SELECT "
          ++ String.intercalate "," (outputColumns u)
          ++ " FROM (\n" ++ selectStatement u sec years ++ "\n) as f_s;"
    ∧ outputColumns u = u.TableMappings.map (fun m => m.Alias) ++ ["table_origin"]
    ∧ (∀ year, selectLongFormTable u year sec =
        "   SELECT "
        ++ String.intercalate ", " (List.zipWith selectItem
            (u.TableMappings.map (fun m => m.LongForm) ++ ["'" ++ year ++ "_" ++ sec ++ "'"])
            (outputColumns u))
        ++ " from f_5500_" ++ year ++ "_" ++ sec ++ " as f_" ++ year)
    ∧ (∀ year, selectShortFormTable u year sec =
        "   SELECT "
        ++ String.intercalate ", " (List.zipWith selectItem
            (u.TableMappings.map (fun m => m.ShortForm) ++ ["'sf_" ++ year ++ "_" ++ sec ++ "'"])
            (outputColumns u))
        ++ " from f_5500_sf_" ++ year ++ "_" ++ sec ++ " as f_" ++ year ++ "_sf")
    ∧ getSearchTableColumns u = concatAll ((declaredColumns u).map ColumnDef.render)
    ∧ (declaredColumns u).length = u.TableMappings.length + 13
    ∧ (∀ c ∈ outputColumns u, c ∈ (declaredColumns u).map (fun d => d.name))
    ∧ (declaredColumns u).getLast? = some { name := "table_origin", type := "text", separator := "" }
    ∧ (∃ front, getSearchTableColumns u = front ++ "table_origin text") := by
  refine ⟨?_, rfl, ?_, ?_, getSearchTableColumns_eq u, ?_, ?_, ?_, ?_⟩
  · simp only [insertRunner, insertColumns_eq]
  · intro year
    rw [selectItems_eq, intercalate_append_singleton, selectLongFormTable]
    rw [show "' as table_origin from f_5500_" = "'" ++ (" as " ++ ("table_origin" ++ " from f_5500_"))
      by decide]
    simp only [foldl_append_text, String.append_assoc, List.map_map, Function.comp_def, selectItem]
  · intro year
    rw [selectItems_eq, intercalate_append_singleton, selectShortFormTable]
    rw [show "' as table_origin from f_5500_sf_"
      = "'" ++ (" as " ++ ("table_origin" ++ " from f_5500_sf_")) by decide]
    simp only [foldl_append_text, String.append_assoc, List.map_map, Function.comp_def, selectItem]
  · simp [declaredColumns]
  · intro c hc
    simp only [outputColumns, List.mem_append, List.mem_map, List.mem_singleton] at hc
    simp only [declaredColumns, List.map_append, List.map_map, List.mem_append, List.mem_map,
      Function.comp_def]
    rcases hc with ⟨m, hm, rfl⟩ | rfl
    · exact Or.inl (Or.inl (Or.inl (Or.inl ⟨m, hm, rfl⟩)))
    · exact Or.inr (by simp)
  · simp [declaredColumns]
  · unfold getSearchTableColumns
    exact ⟨_, rfl⟩

/-! ## Reading the mapping file -/

/-- The reading loop on two-field records followed by anything: it stops at
the first record without data, and what follows records that all have data is
the end of the file. -/
theorem importRkMappingsLoop_twoFields (records : List (String × String))
    (ignored : List ReadResult) (statements : List SQLRunner)
    (hignored : ignored ≠ [] → ∃ r ∈ records, hasData r = false) :
    importRkMappingsLoop (records.map twoFields ++ ignored) statements
      = (statements ++ rkStatementsOf (records.takeWhile hasData),
          if records.all hasData then none else some noDataMessage) := by
  induction records generalizing statements with
  | nil =>
    have hnil : ignored = [] := by
      by_contra hne
      obtain ⟨r, hr, _⟩ := hignored hne
      exact absurd hr (List.not_mem_nil r)
    subst hnil
    simp [importRkMappingsLoop, rkStatementsOf]
  | cons r rs ih =>
    cases hr : hasData r with
    | false =>
      have hempty : r.1 = "" ∧ r.2 = "" := by
        simpa [hasData] using hr
      simp [twoFields, importRkMappingsLoop, hempty, hr, rkStatementsOf]
    | true =>
      have hdata : ¬ (r.1 = "" ∧ r.2 = "") := by
        intro h
        simp [hasData, h.1, h.2] at hr
      have hrest : ignored ≠ [] → ∃ r' ∈ rs, hasData r' = false := by
        intro hne
        obtain ⟨r', hmem, hr'⟩ := hignored hne
        rcases List.mem_cons.mp hmem with h | h
        · subst h; rw [hr] at hr'; exact Bool.noConfusion hr'
        · exact ⟨r', h, hr'⟩
      by_cases hid : (strconv.Atoi r.2).1 = 0
      · simp only [List.map_cons, List.cons_append, twoFields, importRkMappingsLoop, hdata,
          if_false, hid, ne_eq, not_true, List.takeWhile_cons, hr, if_true, List.all_cons,
          Bool.true_and, List.append_eq]
        rw [ih statements hrest]
        simp [rkStatementsOf, hid]
      · simp only [List.map_cons, List.cons_append, twoFields, importRkMappingsLoop, hdata,
          if_false, hid, ne_eq, not_false_eq_true, List.takeWhile_cons, hr, if_true, List.all_cons,
          Bool.true_and, List.append_eq]
        rw [ih (statements ++ [rkInsertStatement (strings.ReplaceAll r.1 "'" "''")
          (strconv.Atoi r.2).1]) hrest]
        simp [rkStatementsOf, hid]

/-- C7: for a file whose records have two fields, with anything at all after
a record that has both fields empty, `importRkMappings` returns the INSERT
statements generated from the records before the first record with both fields
empty, together with the error `Found a line with no data, ...` when there is
such a record and with no error when there is none. -/
theorem importRkMappings_quits_at_empty_line (fs : FileSystem) (fname : String)
    (records : List (String × String)) (ignored : List ReadResult)
    (hfile : fs fname = Except.ok (records.map twoFields ++ ignored))
    (hignored : ignored ≠ [] → ∃ r ∈ records, hasData r = false) :
    importRkMappings fs fname
      = (rkStatementsOf (records.takeWhile hasData),
          if records.all hasData then none
          else some "Found a line with no data, stopping reading now, repair your file if data was truncated.") := by
  unfold importRkMappings
  rw [hfile]
  have := importRkMappingsLoop_twoFields records ignored [] hignored
  simpa [noDataMessage] using this

/-- C7 at the sample instance: `truncated.csv` has a record with no data in
third place, followed by a record and a read error. -/
theorem importRkMappings_quits_at_empty_line_witness :
    importRkMappings sampleFs "truncated.csv"
      = ([{ Statement := "INSERT INTO sched_c_provider_to_fbi_rk_company_id_mappings (sched_c_provider_name, fbi_company_id) VALUES ('O''Neil',12);"
            Description := "Importing rk company id mapping" }],
          some "Found a line with no data, stopping reading now, repair your file if data was truncated.") :=
  (importRkMappings_quits_at_empty_line sampleFs "truncated.csv"
    [("name", "id"), ("O'Neil", "12"), ("", "")]
    [ReadResult.record ["LATER", "7"],
     ReadResult.failure "record on line 5: wrong number of fields"]
    rfl (fun _ => ⟨("", ""), by decide, by decide⟩)).trans (by decide)

/-- C8 fails on the code: the second field `99999999999999999999` is out of
the range of `int`, `strconv.Atoi` returns the largest `int` together with a
range error, the error is dropped and an INSERT is emitted whose id,
9223372036854775807, is not the number in the file. -/
theorem importRkMappings_out_of_range_id :
    strconv.Atoi "99999999999999999999" = (9223372036854775807, some strconv.NumError.ErrRange)
    ∧ importRkMappings sampleFs "big_id.csv"
      = ([{ Statement := "INSERT INTO sched_c_provider_to_fbi_rk_company_id_mappings (sched_c_provider_name, fbi_company_id) VALUES ('ACME',9223372036854775807);"
            Description := "Importing rk company id mapping" }], none) := by
  decide

/-! ## Quoting of the provider name -/

/-- Replacing the single quote by two doubles every single quote. -/
theorem replaceScan_double (cs : List Char) :
    strings.replaceScan [quote] [quote, quote] 0 cs
      = cs.flatMap (fun c => if c = quote then [quote, quote] else [c]) := by
  induction cs with
  | nil => rfl
  | cons c cs ih =>
    by_cases hc : c = quote
    · subst hc
      simp [strings.replaceScan, ih]
    · have hc2 : ¬ quote = c := fun h => hc h.symm
      simp [strings.replaceScan, ih, hc, hc2]

/-- Replacing two single quotes by one undoes the doubling. -/
theorem replaceScan_undouble (cs : List Char) :
    strings.replaceScan [quote, quote] [quote] 0
        (cs.flatMap (fun c => if c = quote then [quote, quote] else [c]))
      = cs := by
  induction cs with
  | nil => rfl
  | cons c cs ih =>
    by_cases hc : c = quote
    · subst hc
      show strings.replaceScan [quote, quote] [quote] 0
        (quote :: quote :: cs.flatMap (fun c => if c = quote then [quote, quote] else [c])) = _
      simp only [strings.replaceScan, List.isPrefixOf, beq_self_eq_true, Bool.and_self, if_true,
        List.length_cons, List.length_nil, List.cons_append, List.nil_append]
      exact congrArg _ ih
    · have hc2 : ¬ quote = c := fun h => hc h.symm
      show strings.replaceScan [quote, quote] [quote] 0
        ((if c = quote then [quote, quote] else [c])
          ++ cs.flatMap (fun c => if c = quote then [quote, quote] else [c])) = _
      rw [if_neg hc]
      show strings.replaceScan [quote, quote] [quote] 0
        (c :: cs.flatMap (fun c => if c = quote then [quote, quote] else [c])) = _
      have hb : (quote == c) = false := by simp [hc2]
      simp only [strings.replaceScan, List.isPrefixOf, hb, Bool.false_and, Bool.false_eq_true,
        if_false]
      exact congrArg _ ih

/-- After doubling, a run of single quotes that starts at an even length has
even length. -/
theorem quoteRunsFrom_double_even (cs : List Char) (cur : Nat) (hcur : Even cur) :
    ∀ n ∈ quoteRunsFrom cur
      (cs.flatMap (fun c => if c = quote then [quote, quote] else [c])), Even n := by
  induction cs generalizing cur with
  | nil =>
    intro n hn
    by_cases h0 : cur = 0
    · simp [quoteRunsFrom, h0] at hn
    · simp [quoteRunsFrom, h0] at hn
      subst hn; exact hcur
  | cons c cs ih =>
    intro n hn
    by_cases hc : c = quote
    · subst hc
      have hstep : Even (cur + 1 + 1) := by
        obtain ⟨k, hk⟩ := hcur
        exact ⟨k + 1, by omega⟩
      simp only [List.flatMap_cons, if_true, List.cons_append, List.nil_append,
        quoteRunsFrom] at hn
      exact ih (cur + 1 + 1) hstep n hn
    · simp only [List.flatMap_cons, hc, if_false, List.cons_append, List.nil_append,
        quoteRunsFrom] at hn
      by_cases h0 : cur = 0
      · rw [if_pos h0] at hn
        exact ih 0 ⟨0, rfl⟩ n hn
      · rw [if_neg h0] at hn
        rcases List.mem_cons.mp hn with h | h
        · subst h; exact hcur
        · exact ih 0 ⟨0, rfl⟩ n h

/-- The escaped name as a list of characters. -/
theorem ReplaceAll_quote_data (name : String) :
    (strings.ReplaceAll name "'" "''").data
      = name.data.flatMap (fun c => if c = quote then [quote, quote] else [c]) := by
  have h : strings.ReplaceAll name "'" "''"
      = ⟨strings.replaceScan [quote] [quote, quote] 0 name.data⟩ := rfl
  rw [h, replaceScan_double]

/-- The statements built by the reading loop, whatever the file holds and
however the loop ends: those of the two-field records it consumed, appended to
the slice it started from. -/
theorem importRkMappingsLoop_statements (reads : List ReadResult) (statements : List SQLRunner) :
    (importRkMappingsLoop reads statements).1 = statements ++ rkStatementsOf (recordsRead reads) := by
  induction reads generalizing statements with
  | nil => simp [importRkMappingsLoop, recordsRead, rkStatementsOf]
  | cons r rest ih =>
    cases r with
    | failure err => simp [importRkMappingsLoop, recordsRead, rkStatementsOf]
    | record line =>
      match line with
      | [] => simp [importRkMappingsLoop, recordsRead, rkStatementsOf]
      | [_] => simp [importRkMappingsLoop, recordsRead, rkStatementsOf]
      | _ :: _ :: _ :: _ => simp [importRkMappingsLoop, recordsRead, rkStatementsOf]
      | [l0, l1] =>
        by_cases hempty : l0 = "" ∧ l1 = ""
        · simp [importRkMappingsLoop, recordsRead, rkStatementsOf, hempty]
        · by_cases hid : (strconv.Atoi l1).1 = 0
          · simp only [importRkMappingsLoop, recordsRead, hempty, if_false, hid, ne_eq, not_true]
            rw [ih]
            simp [rkStatementsOf, hid]
          · simp only [importRkMappingsLoop, recordsRead, hempty, if_false, hid, ne_eq,
              not_false_eq_true, if_true]
            rw [ih]
            simp [rkStatementsOf, hid]

/-- Mapping over the elements kept and transformed by a conditional choice
is mapping over the filtered list. -/
theorem map_filterMap_ite {α β γ : Type} (p : α → Prop) [DecidablePred p] (f : α → β)
    (g : β → γ) (l : List α) :
    (l.filterMap (fun a => if p a then some (f a) else none)).map g
      = (l.filter (fun a => decide (p a))).map (fun a => g (f a)) := by
  induction l with
  | nil => rfl
  | cons a l ih => by_cases h : p a <;> simp [List.filterMap_cons, List.filter_cons, h, ih]

/-- A consumed record is a record of the file. -/
theorem recordsRead_mem (reads : List ReadResult) (r : String × String)
    (hr : r ∈ recordsRead reads) : ReadResult.record [r.1, r.2] ∈ reads := by
  induction reads with
  | nil => simp [recordsRead] at hr
  | cons x rest ih =>
    cases x with
    | failure err => simp [recordsRead] at hr
    | record line =>
      match line with
      | [] => simp [recordsRead] at hr
      | [_] => simp [recordsRead] at hr
      | _ :: _ :: _ :: _ => simp [recordsRead] at hr
      | [l0, l1] =>
        by_cases hempty : l0 = "" ∧ l1 = ""
        · simp [recordsRead, hempty] at hr
        · simp only [recordsRead, hempty, if_false, List.mem_cons] at hr
          rcases hr with h | h
          · subst h; exact List.mem_cons_self _ _
          · exact List.mem_cons_of_mem _ (ih h)

/-- C9: whatever the file holds and however the reading ends, the statements
returned by `importRkMappings` are those of the two-field records it consumed,
in order: each one is the text through `VALUES ('`, then the first field of
its record with every single quote doubled, then `',`, the id and `);`.  For
every name the doubled text has only runs of single quotes of even length, and
replacing each doubled quote by one quote gives back the name. -/
theorem importRkMappings_quotes_name (fs : FileSystem) (fname : String) :
    (importRkMappings fs fname).1
      = (match fs fname with
         | Except.error _ => []
         | Except.ok reads => rkStatementsOf (recordsRead reads))
    ∧ (∀ s ∈ (importRkMappings fs fname).1, ∃ name idText,
        (∃ reads, fs fname = Except.ok reads ∧ ReadResult.record [name, idText] ∈ reads)
        ∧ (strconv.Atoi idText).1 ≠ 0
        ∧ s.Statement =
          "INSERT INTO sched_c_provider_to_fbi_rk_company_id_mappings (sched_c_provider_name, fbi_company_id) VALUES ('"
            ++ strings.ReplaceAll name "'" "''" ++ "'," ++ fmtInt (strconv.Atoi idText).1 ++ ");")
    ∧ (∀ records : List (String × String),
        (rkStatementsOf records).map (fun s => s.Statement)
          = (records.filter (fun r => decide ((strconv.Atoi r.2).1 ≠ 0))).map (fun r =>
              "INSERT INTO sched_c_provider_to_fbi_rk_company_id_mappings (sched_c_provider_name, fbi_company_id) VALUES ('"
                ++ strings.ReplaceAll r.1 "'" "''" ++ "'," ++ fmtInt (strconv.Atoi r.2).1 ++ ");"))
    ∧ (∀ name : String, (strings.ReplaceAll name "'" "''").data
        = name.data.flatMap (fun c => if c = quote then [quote, quote] else [c]))
    ∧ (∀ name : String, ∀ n ∈ quoteRuns (strings.ReplaceAll name "'" "''"), Even n)
    ∧ (∀ name : String,
        strings.ReplaceAll (strings.ReplaceAll name "'" "''") "''" "'" = name) := by
  have hstatements : (importRkMappings fs fname).1
      = (match fs fname with
         | Except.error _ => []
         | Except.ok reads => rkStatementsOf (recordsRead reads)) := by
    unfold importRkMappings
    cases fs fname with
    | error err => rfl
    | ok reads => simp [importRkMappingsLoop_statements]
  refine ⟨hstatements, ?_, ?_, ReplaceAll_quote_data, ?_, ?_⟩
  · intro s hs
    rw [hstatements] at hs
    cases hfs : fs fname with
    | error err => rw [hfs] at hs; exact absurd hs (List.not_mem_nil s)
    | ok reads =>
      rw [hfs] at hs
      simp only [rkStatementsOf, List.mem_filterMap] at hs
      obtain ⟨r, hr, hsome⟩ := hs
      by_cases hid : (strconv.Atoi r.2).1 = 0
      · simp [hid] at hsome
      · simp only [ne_eq, hid, not_false_eq_true, if_true, Option.some.injEq] at hsome
        refine ⟨r.1, r.2, ⟨reads, rfl, recordsRead_mem reads r hr⟩, hid, ?_⟩
        rw [← hsome]
        rfl
  · intro records
    exact map_filterMap_ite (fun r : String × String => (strconv.Atoi r.2).1 ≠ 0)
      (fun r => rkInsertStatement (strings.ReplaceAll r.1 "'" "''") (strconv.Atoi r.2).1)
      (fun s => s.Statement) records
  · intro name
    unfold quoteRuns
    rw [ReplaceAll_quote_data]
    exact quoteRunsFrom_double_even name.data 0 ⟨0, rfl⟩
  · intro name
    have h : strings.ReplaceAll (strings.ReplaceAll name "'" "''") "''" "'"
        = ⟨strings.replaceScan [quote, quote] [quote] 0
            (strings.ReplaceAll name "'" "''").data⟩ := rfl
    rw [h, ReplaceAll_quote_data, replaceScan_undouble]

end Form5500
